import Mathlib

/-!
Shallow embedding of the operation-dispatch and SQL-safety layer of the
mcp-server-mysql repository (src/index.ts), together with theorems about
the permission gate, the read-only query validator, the SQL statement
builders, the connect/pool lifecycle, and the dispatch error boundary.

JavaScript strings are modelled as Lean `String`; the handful of string
primitives the source uses (`trim`, `toUpperCase`, `startsWith`, template
interpolation of `undefined`, truthiness of strings and numbers) are
modelled explicitly below, each with a comment naming the JS construct it
embeds.  Asynchronous database work is modelled with oracles (functions
returning `Except`) and, where ordering matters, with explicit effect
traces.
-/

namespace McpMysql

/-! ## JavaScript string and value primitives -/

/-- Model of `s.startsWith(pre)`: the characters of `pre` occur, in order,
at the very start of `s`. -/
def jsStartsWith (s pre : String) : Bool :=
  pre.data.isPrefixOf s.data

/-- Model of `s.trim()`: strip whitespace from both ends (ASCII-faithful). -/
def jsTrim (s : String) : String :=
  String.mk (((s.data.dropWhile Char.isWhitespace).reverse.dropWhile Char.isWhitespace).reverse)

/-- Model of `s.toUpperCase()` (ASCII-faithful, which covers SQL keywords). -/
def jsToUpperCase (s : String) : String :=
  String.mk (s.data.map Char.toUpper)

/-- `sql.trim().toUpperCase()`, the normalisation both permission checks
apply before classifying a statement. -/
def normalizeSql (sql : String) : String :=
  jsToUpperCase (jsTrim sql)

/-- JS truthiness of an optional string: `undefined` and `""` are falsy. -/
def truthyStr : Option String → Bool
  | some s => !(s == "")
  | none => false

/-- JS truthiness of an optional number: `undefined`, `0` and `NaN` are
falsy (`none` doubles as both absent and NaN here). -/
def truthyNum : Option Int → Bool
  | some n => !(n == 0)
  | none => false

/-- Model of `a || b` on optional strings: the left value when it is
truthy, otherwise the default. -/
def orElseStr (v : Option String) (d : String) : String :=
  match v with
  | some s => if s == "" then d else s
  | none => d

/-- Template interpolation of a possibly-undefined string:
`` `${x}` `` renders `undefined` as the literal text "undefined". -/
def interpOpt : Option String → String
  | some s => s
  | none => "undefined"

/-! ## Permission flags (environment toggles) -/

/-- One permission toggle: `process.env.MYSQL_ALLOW_X !== "false"`. -/
def envFlag (v : Option String) : Bool :=
  !(v == some "false")

/-- The three mutation-permission flags, read once at process start. -/
structure PermissionFlags where
  allowInsert : Bool
  allowUpdate : Bool
  allowDelete : Bool
deriving DecidableEq, Repr

/-- Environment variables consumed by the server (each possibly unset). -/
structure Env where
  MYSQL_HOST : Option String
  MYSQL_PORT : Option String
  MYSQL_USER : Option String
  MYSQL_PASSWORD : Option String
  MYSQL_DATABASE : Option String
  MYSQL_ALLOW_INSERT : Option String
  MYSQL_ALLOW_UPDATE : Option String
  MYSQL_ALLOW_DELETE : Option String
deriving DecidableEq, Repr

/-- The flags derived from the environment
(`ALLOW_INSERT` / `ALLOW_UPDATE` / `ALLOW_DELETE` in the source). -/
def envFlags (env : Env) : PermissionFlags :=
  { allowInsert := envFlag env.MYSQL_ALLOW_INSERT
    allowUpdate := envFlag env.MYSQL_ALLOW_UPDATE
    allowDelete := envFlag env.MYSQL_ALLOW_DELETE }

/-! ## The two permission checks -/

/-- Error message thrown when INSERT is disabled. -/
def insertDisabledMsg : String :=
  "INSERT operations are disabled. Set MYSQL_ALLOW_INSERT=true to enable."

/-- Error message thrown when UPDATE is disabled. -/
def updateDisabledMsg : String :=
  "UPDATE operations are disabled. Set MYSQL_ALLOW_UPDATE=true to enable."

/-- Error message thrown when DELETE is disabled. -/
def deleteDisabledMsg : String :=
  "DELETE operations are disabled. Set MYSQL_ALLOW_DELETE=true to enable."

/-- `checkSqlPermission(sql)`: trims and upper-cases the statement and
throws when it starts with INSERT/UPDATE/DELETE while the corresponding
flag is off.  A thrown error is modelled as `Except.error`. -/
def checkSqlPermission (flags : PermissionFlags) (sql : String) : Except String Unit :=
  if !flags.allowInsert && jsStartsWith (normalizeSql sql) "INSERT" then
    .error insertDisabledMsg
  else if !flags.allowUpdate && jsStartsWith (normalizeSql sql) "UPDATE" then
    .error updateDisabledMsg
  else if !flags.allowDelete && jsStartsWith (normalizeSql sql) "DELETE" then
    .error deleteDisabledMsg
  else
    .ok ()

/-- The fixed denylist of `validateReadOnlyQuery`, in source order. -/
def forbiddenKeywords : List String :=
  ["INSERT", "UPDATE", "DELETE", "DROP", "CREATE", "ALTER", "TRUNCATE",
   "RENAME", "REPLACE", "GRANT", "REVOKE", "LOCK", "UNLOCK"]

/-- The error message `validateReadOnlyQuery` throws for keyword `k`. -/
def readOnlyViolationMsg (k : String) : String :=
  k ++ " operations are not allowed in query tool. Use the execute tool for data modifications or appropriate DDL tools for schema changes."

/-- The `for (const keyword of forbiddenKeywords)` loop: the first keyword
of the list that is a prefix of the normalised statement, if any. -/
def firstForbidden (normalizedSql : String) : List String → Option String
  | [] => none
  | k :: ks =>
    if jsStartsWith normalizedSql k then some k
    else firstForbidden normalizedSql ks

/-- `validateReadOnlyQuery(sql)`: throws, naming the keyword, when the
trimmed upper-cased statement starts with a denylisted keyword. -/
def validateReadOnlyQuery (sql : String) : Except String Unit :=
  match firstForbidden (normalizeSql sql) forbiddenKeywords with
  | some keyword => .error (readOnlyViolationMsg keyword)
  | none => .ok ()

/-! ## Prefix facts used to reason about keyword classification -/

/-- Boolean check that no string of `ks` is a proper prefix of a distinct
string of `ms` (and vice versa). -/
def mutuallyNonPrefix (ks ms : List String) : Bool :=
  ks.all fun k => ms.all fun m =>
    k == m || (!(k.data.isPrefixOf m.data) && !(m.data.isPrefixOf k.data))

theorem jsStartsWith_iff {s p : String} :
    jsStartsWith s p = true ↔ p.data <+: s.data := by
  simp [jsStartsWith]

theorem both_prefix_comparable {s k m : String}
    (hk : jsStartsWith s k = true) (hm : jsStartsWith s m = true) :
    k.data <+: m.data ∨ m.data <+: k.data :=
  List.prefix_or_prefix_of_prefix (jsStartsWith_iff.mp hk) (jsStartsWith_iff.mp hm)

theorem eq_of_both_startsWith {ks ms : List String}
    (hpw : mutuallyNonPrefix ks ms = true) {s k m : String}
    (hks : k ∈ ks) (hms : m ∈ ms)
    (h1 : jsStartsWith s k = true) (h2 : jsStartsWith s m = true) : k = m := by
  have hall := List.all_eq_true.mp hpw k hks
  have hkm := List.all_eq_true.mp hall m hms
  rcases Bool.or_eq_true _ _ |>.mp hkm with heq | hnp
  · exact eq_of_beq heq
  · exfalso
    have hand := Bool.and_eq_true _ _ |>.mp hnp
    rcases both_prefix_comparable h1 h2 with hpre | hpre
    · have : k.data.isPrefixOf m.data = true := List.isPrefixOf_iff_prefix.mpr hpre
      simp [this] at hand
    · have : m.data.isPrefixOf k.data = true := List.isPrefixOf_iff_prefix.mpr hpre
      simp [this] at hand

theorem not_startsWith_of_disjoint {ks ms : List String}
    (hpw : mutuallyNonPrefix ks ms = true)
    (hne : ∀ k ∈ ks, ∀ m ∈ ms, k ≠ m) {s k : String}
    (hks : k ∈ ks) (h1 : jsStartsWith s k = true) :
    ∀ m ∈ ms, jsStartsWith s m = false := by
  intro m hms
  by_contra h
  have h2 : jsStartsWith s m = true := by
    cases hsm : jsStartsWith s m with
    | false => exact absurd hsm h
    | true => rfl
  exact hne k hks m hms (eq_of_both_startsWith hpw hks hms h1 h2)

theorem firstForbidden_eq_none {s : String} {ks : List String}
    (h : ∀ k ∈ ks, jsStartsWith s k = false) :
    firstForbidden s ks = none := by
  induction ks with
  | nil => rfl
  | cons k ks ih =>
    have hk := h k (List.mem_cons_self k ks)
    simp [firstForbidden, hk]
    exact ih fun m hm => h m (List.mem_cons_of_mem _ hm)

theorem firstForbidden_eq_some {s k : String} {ks : List String}
    (hk : k ∈ ks) (hsw : jsStartsWith s k = true)
    (huniq : ∀ m ∈ ks, jsStartsWith s m = true → m = k) :
    firstForbidden s ks = some k := by
  induction ks with
  | nil => cases hk
  | cons m ms ih =>
    cases hsm : jsStartsWith s m with
    | true =>
      have heq : m = k := huniq m (List.mem_cons_self m ms) hsm
      subst heq
      simp [firstForbidden, hsm]
    | false =>
      have hkms : k ∈ ms := by
        rcases List.mem_cons.mp hk with heq | hm
        · subst heq; rw [hsw] at hsm; cases hsm
        · exact hm
      simp [firstForbidden, hsm]
      exact ih hkms fun x hx hswx => huniq x (List.mem_cons_of_mem _ hx) hswx

theorem firstForbidden_none_iff {s : String} {ks : List String} :
    firstForbidden s ks = none ↔ ∀ k ∈ ks, jsStartsWith s k = false := by
  constructor
  · intro h k hk
    induction ks with
    | nil => cases hk
    | cons m ms ih =>
      by_cases hsm : jsStartsWith s m = true
      · simp [firstForbidden, hsm] at h
      · cases hsmv : jsStartsWith s m with
        | true => exact absurd hsmv hsm
        | false =>
          simp [firstForbidden, hsmv] at h
          rcases List.mem_cons.mp hk with heq | hm
          · subst heq; exact hsmv
          · exact ih h hm
  · exact firstForbidden_eq_none

/-! ## SQL statement builders -/

/-- Identifier quoting: `` `name` ``. -/
def quoteId (s : String) : String :=
  "`" ++ s ++ "`"

/-- `` database ? `db`.`table` : `table` `` — note JS truthiness: an empty
database string also selects the unqualified form. -/
def qualTableName (database : Option String) (table : String) : String :=
  if truthyStr database then
    quoteId (database.getD "") ++ "." ++ quoteId table
  else
    quoteId table

/-- Column definition for `create_table` (optional fields may be absent). -/
structure ColumnDef where
  name : String
  type : String
  nullable : Option Bool := none
  primaryKey : Option Bool := none
  autoIncrement : Option Bool := none
  default : Option String := none
deriving DecidableEq, Repr

/-- JS truthiness of an optional boolean. -/
def truthyBool : Option Bool → Bool
  | some b => b
  | none => false

/-- One column clause of `create_table`: modifiers appended in source
order — NOT NULL (only on `nullable === false`), AUTO_INCREMENT,
DEFAULT (on `default !== undefined`), PRIMARY KEY. -/
def columnClause (col : ColumnDef) : String :=
  let d0 := quoteId col.name ++ " " ++ col.type
  let d1 := if col.nullable == some false then d0 ++ " NOT NULL" else d0
  let d2 := if truthyBool col.autoIncrement then d1 ++ " AUTO_INCREMENT" else d1
  let d3 := match col.default with
    | some v => d2 ++ " DEFAULT " ++ v
    | none => d2
  if truthyBool col.primaryKey then d3 ++ " PRIMARY KEY" else d3

/-- The `create_table` statement: one clause per column, joined by
commas, in input order. -/
def createTableSql (table : String) (columns : List ColumnDef)
    (database : Option String) : String :=
  "CREATE TABLE " ++ qualTableName database table ++ " (" ++
    String.intercalate ", " (columns.map columnClause) ++ ")"

/-- The `alter_table` statement switch.  Absent companion fields are
interpolated as the literal text "undefined" (JS template semantics);
an unrecognised tag throws. -/
def alterTableSql (table operation column : String)
    (definition newName database : Option String) : Except String String :=
  let tableName := qualTableName database table
  if operation == "ADD" then
    .ok ("ALTER TABLE " ++ tableName ++ " ADD COLUMN " ++ quoteId column ++ " " ++ interpOpt definition)
  else if operation == "DROP" then
    .ok ("ALTER TABLE " ++ tableName ++ " DROP COLUMN " ++ quoteId column)
  else if operation == "MODIFY" then
    .ok ("ALTER TABLE " ++ tableName ++ " MODIFY COLUMN " ++ quoteId column ++ " " ++ interpOpt definition)
  else if operation == "RENAME" then
    .ok ("ALTER TABLE " ++ tableName ++ " RENAME COLUMN " ++ quoteId column ++ " TO " ++ quoteId (interpOpt newName))
  else
    .error ("Unknown operation: " ++ operation)

/-- The tail of a `create_index` statement, shared by the unique and
non-unique forms. -/
def indexSqlTail (table indexName : String) (columns : List String)
    (database : Option String) : String :=
  "INDEX " ++ quoteId indexName ++ " ON " ++ qualTableName database table ++
    " (" ++ String.intercalate ", " (columns.map quoteId) ++ ")"

/-- The `create_index` statement: `unique ? "UNIQUE " : ""` spliced
between CREATE and INDEX. -/
def createIndexSql (table indexName : String) (columns : List String)
    (unique : Option Bool) (database : Option String) : String :=
  "CREATE " ++ (if truthyBool unique then "UNIQUE " else "") ++
    indexSqlTail table indexName columns database

/-! ## Connection configuration and the connect tool -/

/-- Model of `parseInt(s, 10)`: optional sign then a leading digit run;
`none` models NaN (no leading digit). -/
def jsParseInt10 (s : String) : Option Int :=
  let t := (s.data.dropWhile Char.isWhitespace)
  let core := match t with
    | '-' :: rest => (true, rest.takeWhile Char.isDigit)
    | '+' :: rest => (false, rest.takeWhile Char.isDigit)
    | _ => (false, t.takeWhile Char.isDigit)
  match core with
  | (_, []) => none
  | (neg, ds) =>
    let n : Nat := ds.foldl (fun acc c => 10 * acc + (c.toNat - '0'.toNat)) 0
    some (if neg then -(Int.ofNat n) else Int.ofNat n)

/-- The pool configuration (port `none` models NaN). -/
structure ConnectionConfig where
  host : String
  port : Option Int
  user : String
  password : String
  database : Option String
  waitForConnections : Bool := true
  connectionLimit : Nat := 10
  queueLimit : Nat := 0
deriving DecidableEq, Repr

/-- `getConnectionConfig()`: the default configuration, from environment
variables with fixed fallbacks. -/
def getConnectionConfig (env : Env) : ConnectionConfig :=
  { host := orElseStr env.MYSQL_HOST "localhost"
    port := jsParseInt10 (orElseStr env.MYSQL_PORT "3306")
    user := orElseStr env.MYSQL_USER "root"
    password := orElseStr env.MYSQL_PASSWORD ""
    database := env.MYSQL_DATABASE }

/-- Arguments of the `connect` tool (all optional). -/
structure ConnectArgs where
  host : Option String := none
  port : Option Int := none
  user : Option String := none
  password : Option String := none
  database : Option String := none
deriving DecidableEq, Repr

/-- The configuration the `connect` handler builds: each of host, port,
user, password falls back (by `||`) to the environment default; the
database field is taken from the arguments alone. -/
def connectConfig (env : Env) (a : ConnectArgs) : ConnectionConfig :=
  { host := orElseStr a.host (orElseStr env.MYSQL_HOST "localhost")
    port := if truthyNum a.port then a.port
            else jsParseInt10 (orElseStr env.MYSQL_PORT "3306")
    user := orElseStr a.user (orElseStr env.MYSQL_USER "root")
    password := orElseStr a.password (orElseStr env.MYSQL_PASSWORD "")
    database := a.database }

/-- The mutable pool slot.  Pools get identities so that replacing and
ending them is observable; `ended` records pools whose `end()` ran. -/
structure PoolState where
  nextId : Nat
  pool : Option (Nat × ConnectionConfig)
  ended : List Nat
deriving DecidableEq, Repr

/-- The initial state: no pool yet. -/
def initialPoolState : PoolState :=
  { nextId := 0, pool := none, ended := [] }

/-- `getPool()`: return the current pool, lazily creating one from the
default configuration. -/
def getPoolState (env : Env) (st : PoolState) : PoolState × (Nat × ConnectionConfig) :=
  match st.pool with
  | some p => (st, p)
  | none =>
    let p := (st.nextId, getConnectionConfig env)
    ({ st with pool := some p, nextId := st.nextId + 1 }, p)

/-- The structured output of a successful `connect` call. -/
structure ConnectOutput where
  host : String
  port : Option Int
  database : Option String
deriving DecidableEq, Repr

/-- The `connect` handler: build the merged configuration, end the old
pool if any, install a fresh pool, then probe it (acquire and release a
connection).  A probe failure propagates as an error and the old pool is
not restored — the failing new pool stays installed. -/
def connectTool (env : Env) (probe : ConnectionConfig → Except String Unit)
    (st : PoolState) (a : ConnectArgs) : PoolState × Except String ConnectOutput :=
  let config := connectConfig env a
  let st1 := match st.pool with
    | some (pid, _) => { st with pool := none, ended := st.ended ++ [pid] }
    | none => st
  let st2 := { st1 with pool := some (st1.nextId, config), nextId := st1.nextId + 1 }
  match probe config with
  | .error e => (st2, .error e)
  | .ok () =>
    (st2, .ok { host := config.host
                port := config.port
                database := if truthyStr config.database then config.database else none })

/-! ## The query and execute handlers, with explicit pool-effect traces

The trace records, in order, every interaction the handler has with the
connection pool, so that "the check runs before any statement is
executed" is a statement about the trace. -/

/-- An interaction with the connection pool. -/
inductive PoolEffect
  | acquirePool
  | runQuery (sql : String)
  | runExecute (sql : String)
deriving DecidableEq, Repr

/-- The `query` tool handler: `validateReadOnlyQuery(sql)` first, then
`getPool()`, then `pool.query(sql, params)`.  The flags are in scope but
never consulted. -/
def queryTool (_flags : PermissionFlags) (sql : String) :
    List PoolEffect × Except String Unit :=
  match validateReadOnlyQuery sql with
  | .error e => ([], .error e)
  | .ok () => ([PoolEffect.acquirePool, PoolEffect.runQuery sql], .ok ())

/-- The `execute` tool handler: `getPool()` first, then
`checkSqlPermission(sql)`, then `pool.execute(sql, params)`. -/
def executeTool (flags : PermissionFlags) (sql : String) :
    List PoolEffect × Except String Unit :=
  match checkSqlPermission flags sql with
  | .error e => ([PoolEffect.acquirePool], .error e)
  | .ok () => ([PoolEffect.acquirePool, PoolEffect.runExecute sql], .ok ())

/-! ## The request dispatcher and its catch boundary -/

/-- One request to the call-tool dispatcher: the operation name with its
operation-specific argument bundle. -/
inductive ToolRequest
  | connect (a : ConnectArgs)
  | query (sql : String) (params : List String)
  | execute (sql : String) (params : List String)
  | listDatabases
  | listTables (database : Option String)
  | describeTable (table : String) (database : Option String)
  | createTable (table : String) (columns : List ColumnDef) (database : Option String)
  | alterTable (table operation column : String) (definition newName database : Option String)
  | dropTable (table : String) (database : Option String)
  | createDatabase (database : String) (charset collation : Option String)
  | dropDatabase (database : String)
  | useDatabase (database : String)
  | createIndex (table indexName : String) (columns : List String)
      (unique : Option Bool) (database : Option String)
  | dropIndex (table indexName : String) (database : Option String)
  | unknownTool (name : String)
deriving DecidableEq, Repr

/-- The backing store and driver, as oracles: `run` answers a statement
(with positional parameters) with the raw driver output or a driver
error; `probe` answers a connection test. -/
structure Oracles where
  run : String → List String → Except String String
  probe : ConnectionConfig → Except String Unit

/-- Renders an optional port number the way a JS template renders it
(`none`, standing for NaN, prints as "NaN"). -/
def jsNumToString : Option Int → String
  | some n => toString n
  | none => "NaN"

/-- Success text of the `connect` case. -/
def connectSuccessText (config : ConnectionConfig) : String :=
  "Successfully connected to MySQL server at " ++ config.host ++ ":" ++
    jsNumToString config.port ++
    (if truthyStr config.database then " (database: " ++ config.database.getD "" ++ ")" else "")

/-- The body of the call-tool request handler: the `switch` over the
operation name.  Every throwing construct of the source is an
`Except.error` here; the success value is the text payload returned. -/
def runTool (env : Env) (o : Oracles) (st : PoolState) :
    ToolRequest → PoolState × Except String String
  | .connect a =>
    let (st', r) := connectTool env o.probe st a
    (st', r.map fun _ => connectSuccessText (connectConfig env a))
  | .query sql params =>
    let (st', _) := getPoolState env st
    (st', o.run sql params)
  | .execute sql params =>
    let (st', _) := getPoolState env st
    match checkSqlPermission (envFlags env) sql with
    | .error e => (st', .error e)
    | .ok () => (st', o.run sql params)
  | .listDatabases =>
    let (st', _) := getPoolState env st
    (st', o.run "SHOW DATABASES" [])
  | .listTables database =>
    let (st', _) := getPoolState env st
    let sql := if truthyStr database then "SHOW TABLES FROM " ++ quoteId (database.getD "")
               else "SHOW TABLES"
    (st', o.run sql [])
  | .describeTable table database =>
    let (st', _) := getPoolState env st
    (st', o.run ("DESCRIBE " ++ qualTableName database table) [])
  | .createTable table columns database =>
    let (st', _) := getPoolState env st
    (st', (o.run (createTableSql table columns database) []).map fun _ =>
      "Table " ++ table ++ " created successfully")
  | .alterTable table operation column definition newName database =>
    let (st', _) := getPoolState env st
    match alterTableSql table operation column definition newName database with
    | .error e => (st', .error e)
    | .ok sql => (st', (o.run sql []).map fun _ =>
        "Table " ++ table ++ " altered successfully (" ++ operation ++ " " ++ column ++ ")")
  | .dropTable table database =>
    let (st', _) := getPoolState env st
    (st', (o.run ("DROP TABLE " ++ qualTableName database table) []).map fun _ =>
      "Table " ++ table ++ " dropped successfully")
  | .createDatabase database charset collation =>
    let (st', _) := getPoolState env st
    let cs := orElseStr charset "utf8mb4"
    let col := orElseStr collation "utf8mb4_unicode_ci"
    (st', (o.run ("CREATE DATABASE " ++ quoteId database ++ " CHARACTER SET " ++ cs ++ " COLLATE " ++ col) []).map fun _ =>
      "Database " ++ database ++ " created successfully")
  | .dropDatabase database =>
    let (st', _) := getPoolState env st
    (st', (o.run ("DROP DATABASE " ++ quoteId database) []).map fun _ =>
      "Database " ++ database ++ " dropped successfully")
  | .useDatabase database =>
    let (st', _) := getPoolState env st
    (st', (o.run ("USE " ++ quoteId database) []).map fun _ =>
      "Switched to database " ++ database)
  | .createIndex table indexName columns unique database =>
    let (st', _) := getPoolState env st
    (st', (o.run (createIndexSql table indexName columns unique database) []).map fun _ =>
      "Index " ++ indexName ++ " created successfully on " ++ table)
  | .dropIndex table indexName database =>
    let (st', _) := getPoolState env st
    (st', (o.run ("DROP INDEX " ++ quoteId indexName ++ " ON " ++ qualTableName database table) []).map fun _ =>
      "Index " ++ indexName ++ " dropped from " ++ table)
  | .unknownTool name =>
    (st, .error ("Unknown tool: " ++ name))

/-- The operation result delivered to the caller: a text payload and the
error marker. -/
structure ToolResult where
  text : String
  isError : Bool
deriving DecidableEq, Repr

/-- The dispatch boundary: the whole `switch` runs inside one
`try`/`catch`; a caught error becomes a failure-shaped result carrying
the error message, a success becomes a normal result. -/
def handleCallTool (env : Env) (o : Oracles) (st : PoolState)
    (req : ToolRequest) : PoolState × ToolResult :=
  match runTool env o st req with
  | (st', .ok t) => (st', { text := t, isError := false })
  | (st', .error m) => (st', { text := "Error: " ++ m, isError := true })

/-! ## The spec notion of classification, and concrete fixtures -/

/-- Modelled from the spec glossary, for comparison with the code: the
first whitespace-delimited token of the trimmed, upper-cased statement. -/
def leadingKeyword (sql : String) : String :=
  String.mk ((normalizeSql sql).data.takeWhile (fun c => !c.isWhitespace))

/-- A concrete environment used by witnesses. -/
def envEx : Env :=
  { MYSQL_HOST := some "db.example.com"
    MYSQL_PORT := some "3307"
    MYSQL_USER := some "alice"
    MYSQL_PASSWORD := some "pw"
    MYSQL_DATABASE := some "envdb"
    MYSQL_ALLOW_INSERT := none
    MYSQL_ALLOW_UPDATE := none
    MYSQL_ALLOW_DELETE := none }

/-- Oracles for which every statement and probe succeeds. -/
def okOracles : Oracles :=
  { run := fun _ _ => .ok "[]", probe := fun _ => .ok () }

/-- Oracles whose connection probe fails. -/
def failProbeOracles : Oracles :=
  { run := fun _ _ => .ok "[]", probe := fun _ => .error "connect ECONNREFUSED" }

/-! ## Characterisations of the two checks -/

theorem forbidden_mutuallyNonPrefix :
    mutuallyNonPrefix forbiddenKeywords forbiddenKeywords = true := by decide

theorem readKeywords_mutuallyNonPrefix :
    mutuallyNonPrefix ["SELECT", "SHOW", "DESCRIBE"] forbiddenKeywords = true := by decide

theorem readKeywords_not_forbidden :
    ∀ k ∈ (["SELECT", "SHOW", "DESCRIBE"] : List String),
      ∀ m ∈ forbiddenKeywords, k ≠ m := by decide

theorem startsWith_forbidden_unique {s k m : String} (hk : k ∈ forbiddenKeywords)
    (hm : m ∈ forbiddenKeywords) (hne : k ≠ m) (h1 : jsStartsWith s k = true) :
    jsStartsWith s m = false := by
  cases h2 : jsStartsWith s m with
  | false => rfl
  | true => exact absurd (eq_of_both_startsWith forbidden_mutuallyNonPrefix hk hm h1 h2) hne

theorem validateReadOnlyQuery_rejects {sql k : String} (hk : k ∈ forbiddenKeywords)
    (hsw : jsStartsWith (normalizeSql sql) k = true) :
    validateReadOnlyQuery sql = .error (readOnlyViolationMsg k) := by
  have huniq : ∀ m ∈ forbiddenKeywords,
      jsStartsWith (normalizeSql sql) m = true → m = k := by
    intro m hm hswm
    by_contra hne
    have hfalse := startsWith_forbidden_unique hm hk hne hswm
    rw [hfalse] at hsw
    cases hsw
  simp [validateReadOnlyQuery, firstForbidden_eq_some hk hsw huniq]

theorem validateReadOnlyQuery_ok_iff {sql : String} :
    validateReadOnlyQuery sql = .ok () ↔
      ∀ k ∈ forbiddenKeywords, jsStartsWith (normalizeSql sql) k = false := by
  constructor
  · intro hok k hk
    cases h : firstForbidden (normalizeSql sql) forbiddenKeywords with
    | none => exact firstForbidden_none_iff.mp h k hk
    | some m => simp [validateReadOnlyQuery, h] at hok
  · intro hall
    simp [validateReadOnlyQuery, firstForbidden_eq_none hall]

theorem checkSqlPermission_ok_iff {flags : PermissionFlags} {sql : String} :
    checkSqlPermission flags sql = .ok () ↔
      ((flags.allowInsert || !(jsStartsWith (normalizeSql sql) "INSERT"))
       && (flags.allowUpdate || !(jsStartsWith (normalizeSql sql) "UPDATE"))
       && (flags.allowDelete || !(jsStartsWith (normalizeSql sql) "DELETE"))) = true := by
  cases flags with
  | mk aI aU aD =>
    cases hI : jsStartsWith (normalizeSql sql) "INSERT" <;>
    cases hU : jsStartsWith (normalizeSql sql) "UPDATE" <;>
    cases hD : jsStartsWith (normalizeSql sql) "DELETE" <;>
    cases aI <;> cases aU <;> cases aD <;>
      simp [checkSqlPermission, hI, hU, hD]

theorem checkSqlPermission_insert_error {flags : PermissionFlags} {sql : String}
    (ha : flags.allowInsert = false)
    (hsw : jsStartsWith (normalizeSql sql) "INSERT" = true) :
    checkSqlPermission flags sql = .error insertDisabledMsg := by
  simp [checkSqlPermission, ha, hsw]

theorem checkSqlPermission_update_error {flags : PermissionFlags} {sql : String}
    (ha : flags.allowUpdate = false)
    (hsw : jsStartsWith (normalizeSql sql) "UPDATE" = true) :
    checkSqlPermission flags sql = .error updateDisabledMsg := by
  have hI : jsStartsWith (normalizeSql sql) "INSERT" = false :=
    startsWith_forbidden_unique (by decide) (by decide) (by decide) hsw
  simp [checkSqlPermission, ha, hsw, hI]

theorem checkSqlPermission_delete_error {flags : PermissionFlags} {sql : String}
    (ha : flags.allowDelete = false)
    (hsw : jsStartsWith (normalizeSql sql) "DELETE" = true) :
    checkSqlPermission flags sql = .error deleteDisabledMsg := by
  have hI : jsStartsWith (normalizeSql sql) "INSERT" = false :=
    startsWith_forbidden_unique (by decide) (by decide) (by decide) hsw
  have hU : jsStartsWith (normalizeSql sql) "UPDATE" = false :=
    startsWith_forbidden_unique (by decide) (by decide) (by decide) hsw
  simp [checkSqlPermission, ha, hsw, hI, hU]

/-! ## Claim theorems -/

/-- C1: every call to the query tool runs the read-only validator before
any statement reaches the pool (a rejected statement leaves an empty
pool-effect trace), the validator rejects — naming the offending
keyword — whenever the trimmed upper-cased statement starts with one of
the 13 denylisted keywords, it accepts statements starting with
SELECT/SHOW/DESCRIBE, and its outcome is independent of the
permission-policy flags. -/
theorem c1_query_readonly_gate (flags flags2 : PermissionFlags) (sql : String) :
    queryTool flags sql = queryTool flags2 sql
    ∧ (∀ k, k ∈ forbiddenKeywords → jsStartsWith (normalizeSql sql) k = true →
        queryTool flags sql = ([], .error (readOnlyViolationMsg k)))
    ∧ ((jsStartsWith (normalizeSql sql) "SELECT" = true ∨
        jsStartsWith (normalizeSql sql) "SHOW" = true ∨
        jsStartsWith (normalizeSql sql) "DESCRIBE" = true) →
        queryTool flags sql = ([PoolEffect.acquirePool, PoolEffect.runQuery sql], .ok ())) := by
  refine ⟨rfl, ?_, ?_⟩
  · intro k hk hsw
    simp [queryTool, validateReadOnlyQuery_rejects hk hsw]
  · intro h
    have hnone : ∀ m ∈ forbiddenKeywords, jsStartsWith (normalizeSql sql) m = false := by
      rcases h with h | h | h
      · exact not_startsWith_of_disjoint readKeywords_mutuallyNonPrefix
          readKeywords_not_forbidden (by decide) h
      · exact not_startsWith_of_disjoint readKeywords_mutuallyNonPrefix
          readKeywords_not_forbidden (by decide) h
      · exact not_startsWith_of_disjoint readKeywords_mutuallyNonPrefix
          readKeywords_not_forbidden (by decide) h
    simp [queryTool, validateReadOnlyQuery_ok_iff.mpr hnone]

/-- C1 witness: the validator blocks a DROP before it reaches the pool,
and lets a SELECT through, at concrete inputs. -/
theorem c1_query_readonly_gate_witness :
    queryTool ⟨true, true, true⟩ "DROP TABLE t" =
      ([], .error (readOnlyViolationMsg "DROP"))
    ∧ queryTool ⟨false, false, false⟩ "SELECT 1" =
      ([PoolEffect.acquirePool, PoolEffect.runQuery "SELECT 1"], .ok ()) :=
  ⟨(c1_query_readonly_gate ⟨true, true, true⟩ ⟨false, false, false⟩ "DROP TABLE t").2.1
      "DROP" (by decide) (by decide),
   (c1_query_readonly_gate ⟨false, false, false⟩ ⟨true, true, true⟩ "SELECT 1").2.2
      (Or.inl (by decide))⟩

/-- C2 counterexample: the statement "INSERTED INTO T" has leading
keyword INSERTED — not one of INSERT/UPDATE/DELETE — yet
checkSqlPermission rejects it when allowInsert is off, refuting the
claim that statements with any other leading keyword are always
accepted. -/
theorem c2_counterexample :
    leadingKeyword "INSERTED INTO T" = "INSERTED"
    ∧ leadingKeyword "INSERTED INTO T" ∉ (["INSERT", "UPDATE", "DELETE"] : List String)
    ∧ checkSqlPermission ⟨false, true, true⟩ "INSERTED INTO T" = .error insertDisabledMsg :=
  ⟨by decide, by decide, rfl⟩

/-- C2 (amended): checkSqlPermission rejects exactly the statements whose
trimmed upper-cased text starts with the string INSERT while
allowInsert=false, UPDATE while allowUpdate=false, or DELETE while
allowDelete=false — a prefix test, not a first-token test — naming the
disabled keyword; all other statements are accepted no matter the
flags. -/
theorem c2_mutation_permission_amended (flags : PermissionFlags) (sql : String) :
    (checkSqlPermission flags sql = .ok () ↔
      (flags.allowInsert = true ∨ jsStartsWith (normalizeSql sql) "INSERT" = false)
      ∧ (flags.allowUpdate = true ∨ jsStartsWith (normalizeSql sql) "UPDATE" = false)
      ∧ (flags.allowDelete = true ∨ jsStartsWith (normalizeSql sql) "DELETE" = false))
    ∧ (flags.allowInsert = false → jsStartsWith (normalizeSql sql) "INSERT" = true →
        checkSqlPermission flags sql = .error insertDisabledMsg)
    ∧ (flags.allowUpdate = false → jsStartsWith (normalizeSql sql) "UPDATE" = true →
        checkSqlPermission flags sql = .error updateDisabledMsg)
    ∧ (flags.allowDelete = false → jsStartsWith (normalizeSql sql) "DELETE" = true →
        checkSqlPermission flags sql = .error deleteDisabledMsg) := by
  refine ⟨?_, fun ha hsw => checkSqlPermission_insert_error ha hsw,
    fun ha hsw => checkSqlPermission_update_error ha hsw,
    fun ha hsw => checkSqlPermission_delete_error ha hsw⟩
  rw [checkSqlPermission_ok_iff]
  cases flags with
  | mk aI aU aD =>
    cases aI <;> cases aU <;> cases aD <;>
    cases hI : jsStartsWith (normalizeSql sql) "INSERT" <;>
    cases hU : jsStartsWith (normalizeSql sql) "UPDATE" <;>
    cases hD : jsStartsWith (normalizeSql sql) "DELETE" <;>
      simp

/-- C2 witness: at concrete inputs, a disabled DELETE is rejected with
the DELETE message and an enabled INSERT passes. -/
theorem c2_mutation_permission_amended_witness :
    checkSqlPermission ⟨true, true, false⟩ "  delete from t" = .error deleteDisabledMsg
    ∧ checkSqlPermission ⟨true, true, true⟩ "INSERT INTO t VALUES (1)" = .ok () :=
  ⟨(c2_mutation_permission_amended ⟨true, true, false⟩ "  delete from t").2.2.2
      rfl (by decide),
   (c2_mutation_permission_amended ⟨true, true, true⟩ "INSERT INTO t VALUES (1)").1.mpr
      ⟨Or.inl rfl, Or.inl rfl, Or.inl rfl⟩⟩

/-- C3: the execute tool evaluates the permission check strictly before
the statement is sent to the backing store — on a failed check the
pool-effect trace holds no statement execution, and a statement
execution appears in the trace only when the check passed. -/
theorem c3_execute_permission_order (flags : PermissionFlags) (sql : String) :
    (∀ e, checkSqlPermission flags sql = .error e →
      executeTool flags sql = ([PoolEffect.acquirePool], .error e))
    ∧ (checkSqlPermission flags sql = .ok () →
      executeTool flags sql = ([PoolEffect.acquirePool, PoolEffect.runExecute sql], .ok ()))
    ∧ (∀ s, PoolEffect.runExecute s ∈ (executeTool flags sql).1 →
        checkSqlPermission flags sql = .ok ()) := by
  refine ⟨?_, ?_, ?_⟩
  · intro e he; simp [executeTool, he]
  · intro h; simp [executeTool, h]
  · intro s hs
    cases hc : checkSqlPermission flags sql with
    | ok u => cases u; rfl
    | error e => simp [executeTool, hc] at hs

/-- C3 witness: with INSERT disabled, a concrete INSERT statement is
refused and nothing is executed against the pool. -/
theorem c3_execute_permission_order_witness :
    executeTool ⟨false, true, true⟩ "INSERT INTO t VALUES (1)" =
      ([PoolEffect.acquirePool], .error insertDisabledMsg) :=
  (c3_execute_permission_order ⟨false, true, true⟩ "INSERT INTO t VALUES (1)").1
    insertDisabledMsg (checkSqlPermission_insert_error rfl (by decide))

/-- C4 counterexample: omitting newName for a RENAME does NOT fail with
a ValidationError — the handler interpolates the absent field as the
literal text "undefined", builds
ALTER TABLE `t` RENAME COLUMN `a` TO `undefined`, and the dispatcher
sends it to the backing store and reports success. -/
theorem c4_counterexample :
    alterTableSql "t" "RENAME" "a" none none none =
      .ok "ALTER TABLE `t` RENAME COLUMN `a` TO `undefined`"
    ∧ (runTool envEx okOracles initialPoolState
        (.alterTable "t" "RENAME" "a" none none none)).2 =
      .ok "Table t altered successfully (RENAME a)" :=
  ⟨rfl, rfl⟩

/-- C4 (amended): alter_table with operation RENAME, column a,
newName b on table t builds exactly
ALTER TABLE `t` RENAME COLUMN `a` TO `b`, and an unrecognized operation
tag fails with an Unknown operation error; but an absent companion field
(newName for RENAME, definition for ADD or MODIFY) does not raise a
ValidationError — the literal text "undefined" is interpolated into the
statement instead. -/
theorem c4_alter_table_amended :
    alterTableSql "t" "RENAME" "a" none (some "b") none =
      .ok "ALTER TABLE `t` RENAME COLUMN `a` TO `b`"
    ∧ alterTableSql "t" "ADD" "c" none none none =
      .ok "ALTER TABLE `t` ADD COLUMN `c` undefined"
    ∧ alterTableSql "t" "MODIFY" "c" none none none =
      .ok "ALTER TABLE `t` MODIFY COLUMN `c` undefined"
    ∧ (∀ tbl op col d n db, op ∉ (["ADD", "DROP", "MODIFY", "RENAME"] : List String) →
        alterTableSql tbl op col d n db = .error ("Unknown operation: " ++ op)) := by
  refine ⟨rfl, rfl, rfl, ?_⟩
  intro tbl op col d n db h
  have h1 : (op == "ADD") = false := by
    simp only [beq_eq_false_iff_ne]; intro e; exact h (by simp [e])
  have h2 : (op == "DROP") = false := by
    simp only [beq_eq_false_iff_ne]; intro e; exact h (by simp [e])
  have h3 : (op == "MODIFY") = false := by
    simp only [beq_eq_false_iff_ne]; intro e; exact h (by simp [e])
  have h4 : (op == "RENAME") = false := by
    simp only [beq_eq_false_iff_ne]; intro e; exact h (by simp [e])
  simp [alterTableSql, h1, h2, h3, h4]

/-- C4 witness: a concrete unrecognized tag yields the Unknown operation
error. -/
theorem c4_alter_table_amended_witness :
    alterTableSql "t" "FOO" "c" none none none = .error "Unknown operation: FOO" :=
  c4_alter_table_amended.2.2.2 "t" "FOO" "c" none none none (by decide)

/-- C5 counterexample: with the environment naming a default database,
a connect call that omits the database does NOT fall back to that
default — every other omitted field does fall back, but the new pool is
left without a database. -/
theorem c5_counterexample :
    (getConnectionConfig envEx).database = some "envdb"
    ∧ (connectConfig envEx {}).database = none
    ∧ connectConfig envEx {} = { getConnectionConfig envEx with database := none } :=
  ⟨rfl, rfl, rfl⟩

/-- C5 (amended): connect merges the caller-supplied host, port, user
and password over the environment defaults (omitted ones fall back to
the default configuration, not the active pool), while the database
field is taken from the arguments alone — connect with only
database "x" yields the default configuration scoped to database "x";
and when the liveness probe fails the error surfaces, the old pool has
been ended and is not restored, and the freshly created pool whose probe
failed is what remains installed. -/
theorem c5_connect_amended (env : Env) (st : PoolState)
    (probe : ConnectionConfig → Except String Unit) :
    connectConfig env { database := some "x" } =
      { getConnectionConfig env with database := some "x" }
    ∧ connectConfig env {} = { getConnectionConfig env with database := none }
    ∧ (∀ (a : ConnectArgs) (e : String), probe (connectConfig env a) = .error e →
        (connectTool env probe st a).2 = .error e
        ∧ (connectTool env probe st a).1.pool = some (st.nextId, connectConfig env a)
        ∧ (∀ pid cfg, st.pool = some (pid, cfg) →
            pid ∈ (connectTool env probe st a).1.ended)) := by
  refine ⟨rfl, rfl, ?_⟩
  intro a e he
  cases hp : st.pool with
  | none =>
    refine ⟨?_, ?_, ?_⟩
    · simp [connectTool, hp, he]
    · simp [connectTool, hp, he]
    · intro pid cfg hpc; cases hpc
  | some p =>
    obtain ⟨pid0, cfg0⟩ := p
    refine ⟨?_, ?_, ?_⟩
    · simp [connectTool, hp, he]
    · simp [connectTool, hp, he]
    · intro pid cfg hpc
      obtain ⟨rfl, rfl⟩ : pid0 = pid ∧ cfg0 = cfg := by
        cases hpc; exact ⟨rfl, rfl⟩
      simp [connectTool, hp, he]

/-- C5 witness: a failing probe at concrete inputs surfaces the driver
error and leaves the failing new pool installed. -/
theorem c5_connect_amended_witness :
    (connectTool envEx failProbeOracles.probe initialPoolState {}).2 =
      .error "connect ECONNREFUSED"
    ∧ (connectTool envEx failProbeOracles.probe initialPoolState {}).1.pool =
      some (0, connectConfig envEx {}) := by
  have h := (c5_connect_amended envEx initialPoolState failProbeOracles.probe).2.2
    {} "connect ECONNREFUSED" rfl
  exact ⟨h.1, h.2.1⟩

/-- C6 counterexample: classification is not by first-token equality:
the statement "DELETED ROWS LOG" has first token DELETED, which differs
from the keyword DELETE, yet the read-only validator classifies it as
DELETE and rejects it. -/
theorem c6_counterexample :
    leadingKeyword "DELETED ROWS LOG" = "DELETED"
    ∧ leadingKeyword "DELETED ROWS LOG" ≠ "DELETE"
    ∧ validateReadOnlyQuery "DELETED ROWS LOG" =
        .error (readOnlyViolationMsg "DELETE") :=
  ⟨by decide, by decide, rfl⟩

/-- C6 (amended): both checks classify a statement by a literal prefix
test on the trimmed, upper-cased text — a statement is classified as a
given keyword exactly when that keyword is a prefix of the normalised
text (startsWith), which is coarser than first-token equality. -/
theorem c6_classification_by_prefix_amended (sql : String) (flags : PermissionFlags) :
    (validateReadOnlyQuery sql = .ok () ↔
      ∀ k ∈ forbiddenKeywords, jsStartsWith (normalizeSql sql) k = false)
    ∧ (∀ k, k ∈ forbiddenKeywords → jsStartsWith (normalizeSql sql) k = true →
        validateReadOnlyQuery sql = .error (readOnlyViolationMsg k))
    ∧ (checkSqlPermission flags sql = .ok () ↔
        ((flags.allowInsert || !(jsStartsWith (normalizeSql sql) "INSERT"))
         && (flags.allowUpdate || !(jsStartsWith (normalizeSql sql) "UPDATE"))
         && (flags.allowDelete || !(jsStartsWith (normalizeSql sql) "DELETE"))) = true) :=
  ⟨validateReadOnlyQuery_ok_iff,
   fun _ hk hsw => validateReadOnlyQuery_rejects hk hsw,
   checkSqlPermission_ok_iff⟩

/-- C6 witness: the prefix classification at a concrete input — a
TRUNCATE statement is rejected by the validator naming TRUNCATE. -/
theorem c6_classification_by_prefix_amended_witness :
    validateReadOnlyQuery "TRUNCATE TABLE x" =
      .error (readOnlyViolationMsg "TRUNCATE") :=
  (c6_classification_by_prefix_amended "TRUNCATE TABLE x" ⟨true, true, true⟩).2.1
    "TRUNCATE" (by decide) (by decide)

/-- C7: create_table builds one column clause per column definition, in
input order, with the fixed modifier order, and on the two-column
example builds exactly
CREATE TABLE `t` (`id` INT AUTO_INCREMENT PRIMARY KEY, `email` VARCHAR(255) NOT NULL). -/
theorem c7_create_table_statement :
    createTableSql "t"
      [{ name := "id", type := "INT", primaryKey := some true, autoIncrement := some true },
       { name := "email", type := "VARCHAR(255)", nullable := some false }] none =
      "CREATE TABLE `t` (`id` INT AUTO_INCREMENT PRIMARY KEY, `email` VARCHAR(255) NOT NULL)"
    ∧ (∀ tbl columns db, createTableSql tbl columns db =
        "CREATE TABLE " ++ qualTableName db tbl ++ " (" ++
          String.intercalate ", " (columns.map columnClause) ++ ")") :=
  ⟨by decide, fun _ _ _ => rfl⟩

/-- C8: create_index with unique=true builds exactly
CREATE UNIQUE INDEX `ix_email` ON `t` (`email`); with unique false or
omitted the UNIQUE modifier is absent and the rest of the statement is
unchanged. -/
theorem c8_create_index_statement :
    createIndexSql "t" "ix_email" ["email"] (some true) none =
      "CREATE UNIQUE INDEX `ix_email` ON `t` (`email`)"
    ∧ (∀ tbl i cs db, createIndexSql tbl i cs (some true) db =
        "CREATE UNIQUE " ++ indexSqlTail tbl i cs db)
    ∧ (∀ tbl i cs db, createIndexSql tbl i cs (some false) db =
        "CREATE " ++ indexSqlTail tbl i cs db)
    ∧ (∀ tbl i cs db, createIndexSql tbl i cs none db =
        "CREATE " ++ indexSqlTail tbl i cs db) := by
  exact ⟨by decide, fun _ _ _ _ => rfl, fun _ _ _ _ => rfl, fun _ _ _ _ => rfl⟩

/-- C9: every error raised while handling a dispatched operation is
caught at the dispatch boundary and converted into a failure-shaped
result carrying the error message and the error marker; successes carry
no marker; and every dispatch produces exactly one result. -/
theorem c9_dispatch_error_boundary (env : Env) (o : Oracles) (st : PoolState)
    (req : ToolRequest) :
    (∀ m, (runTool env o st req).2 = .error m →
      handleCallTool env o st req =
        ((runTool env o st req).1, { text := "Error: " ++ m, isError := true }))
    ∧ (∀ t, (runTool env o st req).2 = .ok t →
      handleCallTool env o st req =
        ((runTool env o st req).1, { text := t, isError := false }))
    ∧ ∃! r : PoolState × ToolResult, handleCallTool env o st req = r := by
  refine ⟨?_, ?_, ⟨handleCallTool env o st req, rfl, fun y hy => hy.symm⟩⟩
  · intro m hm
    rcases hrt : runTool env o st req with ⟨st2, res⟩
    rw [hrt] at hm
    cases res with
    | ok t => cases hm
    | error m2 =>
      obtain rfl : m2 = m := by cases hm; rfl
      simp [handleCallTool, hrt]
  · intro t ht
    rcases hrt : runTool env o st req with ⟨st2, res⟩
    rw [hrt] at ht
    cases res with
    | error m => cases ht
    | ok t2 =>
      obtain rfl : t2 = t := by cases ht; rfl
      simp [handleCallTool, hrt]

/-- C9 witness: an unknown tool name at concrete inputs produces the
failure-shaped result with the error marker. -/
theorem c9_dispatch_error_boundary_witness :
    handleCallTool envEx okOracles initialPoolState (.unknownTool "foo") =
      (initialPoolState, { text := "Error: Unknown tool: foo", isError := true }) :=
  (c9_dispatch_error_boundary envEx okOracles initialPoolState (.unknownTool "foo")).1
    "Unknown tool: foo" rfl

/-- C10: a permission toggle is false exactly when its environment
variable holds the exact string "false"; FALSE, False, 0, no, the empty
string and an unset variable all leave the toggle true, so the
corresponding operation kind stays permitted. -/
theorem c10_permission_toggles (v : Option String) (env : Env) :
    (envFlag v = false ↔ v = some "false")
    ∧ envFlag (some "FALSE") = true ∧ envFlag (some "False") = true
    ∧ envFlag (some "0") = true ∧ envFlag (some "no") = true
    ∧ envFlag (some "") = true ∧ envFlag none = true
    ∧ (env.MYSQL_ALLOW_INSERT ≠ some "false" → (envFlags env).allowInsert = true)
    ∧ (env.MYSQL_ALLOW_UPDATE ≠ some "false" → (envFlags env).allowUpdate = true)
    ∧ (env.MYSQL_ALLOW_DELETE ≠ some "false" → (envFlags env).allowDelete = true) := by
  refine ⟨?_, rfl, rfl, rfl, rfl, rfl, rfl, ?_, ?_, ?_⟩
  · cases v with
    | none => simp [envFlag]
    | some s => simp [envFlag]
  · intro h; simp [envFlags, envFlag, h]
  · intro h; simp [envFlags, envFlag, h]
  · intro h; simp [envFlags, envFlag, h]

/-- C10 witness: the toggle stays on for the value "0" in a concrete
environment, and the general equivalence applied at exact "false". -/
theorem c10_permission_toggles_witness :
    (envFlags { envEx with MYSQL_ALLOW_INSERT := some "0" }).allowInsert = true
    ∧ envFlag (some "false") = false :=
  ⟨(c10_permission_toggles (some "0") { envEx with MYSQL_ALLOW_INSERT := some "0" }).2.2.2.2.2.2.2.1
      (by decide),
   (c10_permission_toggles (some "false") envEx).1.mpr rfl⟩

end McpMysql
